import Mathlib

/-!
Verification of the composite-type layer of the pydsdl DSDL front end.

The development shallowly embeds `src/pydsdl/_serializable/_composite.py`
(CompositeType / UnionType / StructureType / ServiceType construction and the
derived quantities: alignment requirement, extent, bit-length set, union tag)
and `src/pydsdl/error.py` (ParseError location filling).

Collaborating modules that are not part of the sources (`_bit_length_set`,
`_name`, `_void`, `_port_id_ranges`, primitive types) are modelled from the
specification at their interface boundary; every such definition carries a
doc comment starting with `Modelled from the spec:`.

Machine conventions of the embedding:
* Python `int` values that are always non-negative here (bit counts, lengths,
  port identifiers, version numbers) are `Nat`; no overflow is involved.
* A raising constructor is a function into `Except Err _`; a Python `assert`
  that can fail is the `Err.assertionFailure` error path (asserts are enabled
  in normal CPython execution).
* `max` of a bit-length set is taken with default 0 for the empty set; by the
  specification's invariant the sets supplied by data types are non-empty, so
  the default is never observed on the Python side (where `max` would raise).
-/

/-- Modelled from the spec: Python `str.strip()` — remove leading and trailing
whitespace (ASCII whitespace suffices for the names at hand).  Implemented
over the character list so that it evaluates inside the kernel. -/
def str_trim (s : String) : String :=
  ⟨((s.data.dropWhile Char.isWhitespace).reverse.dropWhile Char.isWhitespace).reverse⟩

/-- Modelled from the spec: Python `sep in s` for a single-character `sep`. -/
def str_contains (s : String) (c : Char) : Bool := s.data.contains c

/-- Modelled from the spec: Python `s.endswith(suffix)`. -/
def str_ends_with (s suffix : String) : Bool :=
  s.data.reverse.take suffix.data.length == suffix.data.reverse

/-- Modelled from the spec: Python `s.split('.')` (empty parts preserved;
splitting the empty string yields one empty part). -/
def split_on_dot : List Char → List String
  | [] => [""]
  | c :: rest =>
      let r := split_on_dot rest
      if c = '.' then "" :: r
      else
        match r with
        | [] => [String.mk [c]]
        | h :: t => String.mk (c :: h.data) :: t

/-- Modelled from the spec: `int.bit_length` of Python — the number of binary
digits of a natural number (`0` has bit length `0`).  Implemented with
structural fuel so that it evaluates inside the kernel. -/
def bitLenFuel : Nat → Nat → Nat
  | _, 0 => 0
  | 0, _ + 1 => 0
  | fuel + 1, n + 1 => bitLenFuel fuel ((n + 1) / 2) + 1

/-- Modelled from the spec: Python `n.bit_length()`. -/
def bitLen (n : Nat) : Nat := bitLenFuel n n

/-- Modelled from the spec: round `x` up to the next multiple of the alignment
`a` (elements already aligned are unchanged); `a = 0` never occurs because
every alignment requirement is positive. -/
def pad_bit (a x : Nat) : Nat := if a = 0 then x else (x + a - 1) / a * a

/-- Modelled from the spec: `BitLengthSet.pad_to_alignment` — pad every element
of the set up to the next multiple of the given alignment. -/
def pad_to_alignment (s : Finset Nat) (a : Nat) : Finset Nat := s.image (pad_bit a)

/-- Modelled from the spec: the pointwise (Minkowski) sum of two bit-length
sets: every pairwise sum of elements, deduplicated. -/
def minkowski_sum (A B : Finset Nat) : Finset Nat := Finset.image₂ (· + ·) A B

/-- Modelled from the spec: Python `max(bit_length_set)`.  The sets produced by
composite aggregation are non-empty (spec invariant), so the default value 0
for the empty set is never observed. -/
def bls_max (s : Finset Nat) : Nat := s.max.unbot' 0

/-- The serializable-type contract consumed by the composite layer: a field's
data type exposes its bit-length set and its alignment requirement, plus the
two predicates the validation pipeline inspects (`isinstance(t, CompositeType)
and t.deprecated`, and `isinstance(t, VoidType)`). -/
structure SType where
  bls : Finset Nat
  align : Nat
  compositeDeprecated : Bool
  isVoid : Bool
deriving DecidableEq

/-- Attributes of a composite: named fields, unnamed padding fields, and named
constants (mirrors `_attribute.Field` / `PaddingField` / `Constant`). -/
inductive Attribute where
  | field (name : String) (ty : SType)
  | padding (bits : Nat)
  | constant (name : String) (ty : SType)
deriving DecidableEq

/-- Python `a.name`: a padding field's name is the empty string. -/
def Attribute.name : Attribute → String
  | .field n _ => n
  | .padding _ => ""
  | .constant n _ => n

/-- Python `a.data_type`.  Modelled from the spec for the padding case: a
`PaddingField` carries the fixed-width void filler type (`_void.VoidType` is
not under src/); void fillers are bit-packed, so their alignment requirement
is one bit — this is pinned down by the in-source unit test
`_unittest_field_iterators`, where a `VoidType(3)` padding field sits at
non-byte-aligned offsets. -/
def Attribute.dataType : Attribute → SType
  | .field _ t => t
  | .padding bits => { bls := {bits}, align := 1, compositeDeprecated := false, isVoid := true }
  | .constant _ t => t

/-- Python `isinstance(a, Field)` (note that `PaddingField` subclasses `Field`). -/
def Attribute.isField : Attribute → Bool
  | .field _ _ => true
  | .padding _ => true
  | .constant _ _ => false

/-- Python `isinstance(a, PaddingField)`. -/
def Attribute.isPadding : Attribute → Bool
  | .padding _ => true
  | _ => false

/-- `CompositeType.fields`: attributes that are `Field` instances, including
padding fields, in declaration order. -/
def fields_of (attrs : List Attribute) : List Attribute := attrs.filter Attribute.isField

/-- `CompositeType.fields_except_padding`. -/
def fields_except_padding (attrs : List Attribute) : List Attribute :=
  attrs.filter fun a => a.isField && !a.isPadding

/-- The data types of the fields, in declaration order
(`[x.data_type for x in self.fields]`). -/
def field_types (attrs : List Attribute) : List SType := (fields_of attrs).map Attribute.dataType

/-- `CompositeType.alignment_requirement`:
`max(self.BITS_PER_BYTE, *(x.data_type.alignment_requirement for x in self.fields))`. -/
def alignment_of_attributes (attrs : List Attribute) : Nat :=
  ((fields_of attrs).map fun a => a.dataType.align).foldl max 8

/-- Definition following the claim's words (for comparison with the source
definition `alignment_of_attributes`): the largest of one byte and the
alignment requirements of the non-padding, non-constant fields' data types. -/
def alignment_requirement_spec (attrs : List Attribute) : Nat :=
  ((fields_except_padding attrs).map fun a => a.dataType.align).foldl max 8

/-- Modelled from the spec: the per-component name validator (`_name.check_name`
is not under src/): a component is well-formed iff it is non-empty, starts
with a letter or an underscore, and contains only letters, digits and
underscores. -/
def check_name (s : String) : Bool :=
  match s.data with
  | [] => false
  | c :: rest =>
      (c.isAlpha || c == '_') && (c :: rest).all fun ch => ch.isAlphanum || ch == '_'

/-- Modelled from the spec: upper bound of the message/subject identifier range
supplied by the external registry (`_port_id_ranges` is not under src/). -/
def MAX_SUBJECT_ID : Nat := 8191

/-- Modelled from the spec: upper bound of the (materially smaller) service
identifier range supplied by the external registry. -/
def MAX_SERVICE_ID : Nat := 511

/-- The version pair of a definition (`Version` named tuple). -/
structure Version where
  major : Nat
  minor : Nat
deriving DecidableEq

/-- The error taxonomy of the constructor pipeline.  `assertionFailure` stands
for a failing Python `assert` (an internal-consistency error), and
`serviceNotSerializable` for the `TypeError` raised by
`ServiceType._aggregate_bit_length_sets`. -/
inductive Err where
  | invalidName
  | invalidVersion
  | attributeNameCollision
  | invalidFixedPortID
  | deprecatedDependency
  | invalidExtent
  | malformedUnion
  | serviceNotSerializable
  | assertionFailure
deriving DecidableEq

/-- The kind of a composite: plain structure, tagged union, or service. -/
inductive Kind where
  | struct
  | union
  | service
deriving DecidableEq

/-- The constructor parameters of `CompositeType.__init__`.  `parentService`
records whether a parent-service back-reference was supplied (the synthesized
request/response halves). -/
structure Params where
  name : String
  version : Version
  attributes : List Attribute
  extent : Option Nat
  final : Bool
  deprecated : Bool
  fixedPortId : Option Nat
  parentService : Bool
deriving DecidableEq

/-- `UnionType._compute_tag_bit_length` for two or more variants: the bit
length of `len - 1`, rounded up to the next power of two no smaller than one
byte (`2 ** math.ceil(math.log2(max(8, unaligned)))`, exact at these integer
magnitudes), then rounded up to at least every variant's alignment
requirement. -/
def compute_tag_bit_length (ts : List SType) : Nat :=
  let unaligned := bitLen (ts.length - 1)
  let tag := 2 ^ bitLen (max 8 unaligned - 1)
  (ts.map SType.align).foldl max tag

/-- `StructureType.aggregate_bit_length_sets`: the ordered fold over the field
types, padding the running set to each field's alignment before adding
(pointwise) the field's own set.  The Python fold starts from the empty
`BitLengthSet()`, which the bit-length-set algebra treats as `{0}` (spec
invariant: an empty aggregate yields `{0}`). -/
def aggregate_bit_length_sets_of_structure (ts : List SType) : Finset Nat :=
  ts.foldl (fun bls t => minkowski_sum (pad_to_alignment bls t.align) t.bls) {0}

/-- `UnionType.aggregate_bit_length_sets`: `{0}` for zero variants, the
variant's own set for one variant, otherwise the union of all variants' sets
with the tag bit length added to every element.  The assert
`tag_bit_length in {8, 16, 32, 64}` inside `_compute_tag_bit_length` is the
`assertionFailure` error path. -/
def aggregate_bit_length_sets_of_union (ts : List SType) : Except Err (Finset Nat) :=
  match ts with
  | [] => .ok {0}
  | [t] => .ok t.bls
  | t :: t2 :: rest =>
      if compute_tag_bit_length (t :: t2 :: rest) = 8 ∨
          compute_tag_bit_length (t :: t2 :: rest) = 16 ∨
          compute_tag_bit_length (t :: t2 :: rest) = 32 ∨
          compute_tag_bit_length (t :: t2 :: rest) = 64 then
        .ok (((t :: t2 :: rest).foldl (fun (out : Finset Nat) (t : SType) => out ∪ t.bls)
              ∅).image fun x => x + compute_tag_bit_length (t :: t2 :: rest))
      else
        .error .assertionFailure

/-- `CompositeType._aggregate_bit_length_sets`, dispatched on the kind; the
service override raises `TypeError` unconditionally. -/
def aggregate_bit_length_sets : Kind → List Attribute → Except Err (Finset Nat)
  | .struct, attrs => .ok (aggregate_bit_length_sets_of_structure (field_types attrs))
  | .union, attrs => aggregate_bit_length_sets_of_union (field_types attrs)
  | .service, _ => .error .serviceNotSerializable

/-- The duplicate-name scan of `CompositeType.__init__`: an attribute with a
non-empty name equal to an earlier attribute's name is a collision. -/
def has_name_collision : List Attribute → List String → Bool
  | [], _ => false
  | a :: rest, used =>
      if a.name ≠ "" ∧ a.name ∈ used then true else has_name_collision rest (a.name :: used)

/-- The port-identifier range check: a fixed port ID is out of range when it
exceeds the service bound (for services) or the subject bound (for messages);
an absent port ID is never out of range.  (Negative identifiers cannot arise
in the `Nat` embedding.) -/
def port_id_out_of_range (kind : Kind) (pid : Option Nat) : Bool :=
  match pid with
  | none => false
  | some pid =>
      if kind = .service then decide (MAX_SERVICE_ID < pid) else decide (MAX_SUBJECT_ID < pid)

/-- Steps of `CompositeType.__init__` up to and including the deprecation
check, in source order: name normalization (`str(name).strip()`) and the
parent-service suffix assert, the four name checks, the version check, the
attribute-collision check, the port-identifier range check, and the
deprecated-dependency check.  Returns the normalized name. -/
def validate_declaration (kind : Kind) (p : Params) : Except Err String :=
  if p.parentService = true ∧
      ¬(str_ends_with (str_trim p.name) ".Request" = true ∨
        str_ends_with (str_trim p.name) ".Response" = true) then
    .error .assertionFailure
  else if str_trim p.name = "" then .error .invalidName
  else if ¬ str_contains (str_trim p.name) '.' = true then .error .invalidName
  else if 50 < (str_trim p.name).length ∧ p.parentService = false then .error .invalidName
  else if ¬ (split_on_dot (str_trim p.name).data).all check_name = true then .error .invalidName
  else if ¬ (p.version.major ≤ 255 ∧ p.version.minor ≤ 255 ∧
             0 < p.version.major + p.version.minor) then .error .invalidVersion
  else if has_name_collision p.attributes [] = true then .error .attributeNameCollision
  else if port_id_out_of_range kind p.fixedPortId = true then .error .invalidFixedPortID
  else if p.deprecated = false ∧
          p.attributes.any (fun a => a.dataType.compositeDeprecated) = true then
    .error .deprecatedDependency
  else .ok (str_trim p.name)

/-- The minimal extent of `CompositeType.__init__` (line 144): the maximum of
the aggregate bit-length set padded to the alignment requirement. -/
def minimal_extent_of (agg : Finset Nat) (attrs : List Attribute) : Nat :=
  bls_max (pad_to_alignment agg (alignment_of_attributes attrs))

/-- Resolution of the declared extent: for a final type without an explicit
extent it is the minimal extent; for a non-final type without an explicit
extent it is the alignment-padded double of the unpadded aggregate maximum
(multiply first, then align); otherwise the explicit value. -/
def resolved_extent (p : Params) (agg : Finset Nat) : Nat :=
  match p.extent with
  | none =>
      if p.final = true then minimal_extent_of agg p.attributes
      else pad_bit (alignment_of_attributes p.attributes) (2 * bls_max agg)
  | some e => e

/-- The remainder of `CompositeType.__init__`: aggregate the bit-length sets,
derive the minimal extent, resolve the declared extent, run the two alignment
asserts and the three extent validations.  Returns the normalized name and
the resolved extent.  (The final block of paranoid asserts of the source is
implied by these checks and is omitted.) -/
def construct_base (kind : Kind) (p : Params) : Except Err (String × Nat) :=
  match validate_declaration kind p with
  | .error e => .error e
  | .ok name =>
      match aggregate_bit_length_sets kind p.attributes with
      | .error e => .error e
      | .ok agg =>
          if ¬ (8 ≤ alignment_of_attributes p.attributes ∧
                alignment_of_attributes p.attributes % 8 = 0) then .error .assertionFailure
          else if ¬ resolved_extent p agg % alignment_of_attributes p.attributes = 0 then
            .error .invalidExtent
          else if resolved_extent p agg < minimal_extent_of agg p.attributes then
            .error .invalidExtent
          else if p.final = true ∧ minimal_extent_of agg p.attributes < resolved_extent p agg then
            .error .invalidExtent
          else .ok (name, resolved_extent p agg)

/-- Helper of the union membership scan: `isinstance(a, PaddingField) or not
a.name or isinstance(a.data_type, VoidType)`. -/
def union_forbidden (a : Attribute) : Bool :=
  a.isPadding || a.name == "" || a.dataType.isVoid

/-- `UnionType.number_of_variants` (`len(self.fields)`). -/
def number_of_variants (attrs : List Attribute) : Nat := (fields_of attrs).length

/-- The body of `UnionType.__init__` that runs after `super().__init__()`
returns: the minimum-variant check, the padding/void scan, and the
computation of the implicit tag field type.  For the other kinds there is no
tag. -/
def union_post : Kind → List Attribute → Except Err (Option Nat)
  | .union, attrs =>
      if number_of_variants attrs < 2 then .error .malformedUnion
      else if attrs.any union_forbidden = true then .error .malformedUnion
      else .ok (some (compute_tag_bit_length (field_types attrs)))
  | .struct, _ => .ok none
  | .service, _ => .ok none

/-- A fully constructed composite type: the state captured by a
`CompositeType` instance (plus the union tag bit length, present exactly for
unions). -/
structure CompositeType where
  full_name : String
  version : Version
  attributes : List Attribute
  final : Bool
  deprecated : Bool
  fixed_port_id : Option Nat
  parent_service : Bool
  kind : Kind
  extent : Nat
  tag_bit_length : Option Nat
deriving DecidableEq

/-- The whole constructor: `CompositeType.__init__` (through `construct_base`)
followed by the kind-specific post-construction checks of
`UnionType.__init__`. -/
def construct_composite (kind : Kind) (p : Params) : Except Err CompositeType :=
  match construct_base kind p with
  | .error e => .error e
  | .ok (name, ext) =>
      match union_post kind p.attributes with
      | .error e => .error e
      | .ok tag =>
          .ok { full_name := name
                version := p.version
                attributes := p.attributes
                final := p.final
                deprecated := p.deprecated
                fixed_port_id := p.fixedPortId
                parent_service := p.parentService
                kind := kind
                extent := ext
                tag_bit_length := tag }

/-- `CompositeType.alignment_requirement` of a constructed instance. -/
def CompositeType.alignment_requirement (c : CompositeType) : Nat :=
  alignment_of_attributes c.attributes

/-- `CompositeType.DEFAULT_DELIMITER_HEADER_BIT_LENGTH`. -/
def DEFAULT_DELIMITER_HEADER_BIT_LENGTH : Nat := 32

/-- The bit length of `CompositeType.delimiter_header_type`: absent for final
types, otherwise `max(32, alignment_requirement)`. -/
def CompositeType.delimiter_header_bit_length (c : CompositeType) : Option Nat :=
  if c.final = true then none
  else some (max DEFAULT_DELIMITER_HEADER_BIT_LENGTH c.alignment_requirement)

/-- `CompositeType.bit_length_set`: for a final type the aggregate padded to
the alignment requirement (for a service this re-raises the aggregation
`TypeError`); for a non-final type, every integer from 0 to the extent
inclusive, padded to the alignment requirement, with the delimiter-header
width added to every element. -/
def CompositeType.bit_length_set (c : CompositeType) : Except Err (Finset Nat) :=
  if c.final = true then
    match aggregate_bit_length_sets c.kind c.attributes with
    | .error e => .error e
    | .ok s => .ok (pad_to_alignment s c.alignment_requirement)
  else
    .ok ((pad_to_alignment (Finset.range (c.extent + 1)) c.alignment_requirement).image
          fun x => x + max DEFAULT_DELIMITER_HEADER_BIT_LENGTH c.alignment_requirement)

/-- `ServiceType.SchemaParams`. -/
structure SchemaParams where
  attributes : List Attribute
  extent : Option Nat
  isUnion : Bool
  isFinal : Bool
deriving DecidableEq

/-- The serializable-type view of a constructed composite, as consumed when it
becomes a field's data type: its bit-length set, its alignment requirement,
and its deprecation mark; a composite is never a void type. -/
def CompositeType.asSType (c : CompositeType) : SType :=
  { bls := c.bit_length_set.toOption.getD ∅
    align := c.alignment_requirement
    compositeDeprecated := c.deprecated
    isVoid := false }

/-- `ServiceType.__init__`: build the request half (kind chosen by
`is_union`), then the response half, each with the synthesized name, no fixed
port identifier, an empty source path and the parent-service back-reference;
then build the service container itself as an always-final composite of
service kind whose two fields are `request` and `response`, with no extent
override.  Returns (request half, response half, container). -/
def construct_service (name : String) (version : Version)
    (requestParams responseParams : SchemaParams) (deprecated : Bool)
    (fixedPortId : Option Nat) :
    Except Err (CompositeType × CompositeType × CompositeType) :=
  match construct_composite (if requestParams.isUnion then .union else .struct)
      { name := name ++ ".Request"
        version := version
        attributes := requestParams.attributes
        extent := requestParams.extent
        final := requestParams.isFinal
        deprecated := deprecated
        fixedPortId := none
        parentService := true } with
  | .error e => .error e
  | .ok req =>
      match construct_composite (if responseParams.isUnion then .union else .struct)
          { name := name ++ ".Response"
            version := version
            attributes := responseParams.attributes
            extent := responseParams.extent
            final := responseParams.isFinal
            deprecated := deprecated
            fixedPortId := none
            parentService := true } with
      | .error e => .error e
      | .ok resp =>
          match construct_composite .service
              { name := name
                version := version
                attributes := [Attribute.field "request" req.asSType,
                               Attribute.field "response" resp.asSType]
                extent := none
                final := true
                deprecated := deprecated
                fixedPortId := fixedPortId
                parentService := false } with
          | .error e => .error e
          | .ok svc => .ok (req, resp, svc)

/-- The location state of `error.ParseError`: an optional source path and an
optional line number. -/
structure ParseError where
  path : Option String
  line : Option Int
deriving DecidableEq

/-- Python truthiness of the optional path (`not self._path`): false for
`None` and for the empty string. -/
def truthy_path : Option String → Bool
  | none => false
  | some s => !(s == "")

/-- Python truthiness of the optional line (`not self._line`): false for
`None` and for zero. -/
def truthy_line : Option Int → Bool
  | none => false
  | some n => !(n == 0)

/-- `ParseError.set_error_location_if_unknown`. -/
def ParseError.set_error_location_if_unknown (e : ParseError)
    (path : Option String) (line : Option Int) : ParseError :=
  { path := if !truthy_path e.path && truthy_path path then path else e.path
    line := if !truthy_line e.line && truthy_line line then line else e.line }

deriving instance DecidableEq for Except

/-- Sample serializable type for the witnesses: a 16-bit bit-packed primitive
(bit-length set `{16}`, alignment one bit), as in the in-source unit tests. -/
def sampleU16 : SType :=
  { bls := {16}, align := 1, compositeDeprecated := false, isVoid := false }

/-- Sample constructor parameters: a final structure `a.A` with two 16-bit
fields (the spec's concrete case 1: bit-length set `{32}`). -/
def sampleStructParams : Params :=
  { name := "a.A"
    version := ⟨0, 1⟩
    attributes := [Attribute.field "a" sampleU16, Attribute.field "b" sampleU16]
    extent := none
    final := true
    deprecated := false
    fixedPortId := none
    parentService := false }

/-- The composite produced by `sampleStructParams`. -/
def sampleStruct : CompositeType :=
  { full_name := "a.A"
    version := ⟨0, 1⟩
    attributes := [Attribute.field "a" sampleU16, Attribute.field "b" sampleU16]
    final := true
    deprecated := false
    fixed_port_id := none
    parent_service := false
    kind := .struct
    extent := 32
    tag_bit_length := none }

theorem sampleStruct_ok : construct_composite .struct sampleStructParams = .ok sampleStruct := by
  decide

/-- Collected facts of a successful `construct_base` run: every validation
stage passed and the returned extent is the resolved extent. -/
theorem construct_base_ok (k : Kind) (p : Params) (name : String) (ext : Nat)
    (h : construct_base k p = .ok (name, ext)) :
    ∃ agg, validate_declaration k p = .ok name ∧
      aggregate_bit_length_sets k p.attributes = .ok agg ∧
      ext = resolved_extent p agg ∧
      8 ≤ alignment_of_attributes p.attributes ∧
      alignment_of_attributes p.attributes % 8 = 0 ∧
      ext % alignment_of_attributes p.attributes = 0 ∧
      minimal_extent_of agg p.attributes ≤ ext ∧
      (p.final = true → ext = minimal_extent_of agg p.attributes) := by
  unfold construct_base at h
  split at h
  · simp at h
  · rename_i nm hv
    split at h
    · simp at h
    · rename_i agg ha
      split at h
      · simp at h
      · split at h
        · simp at h
        · split at h
          · simp at h
          · split at h
            · simp at h
            · rename_i h8 hmod hlt hfin
              rw [not_not] at h8 hmod
              simp only [Except.ok.injEq, Prod.mk.injEq] at h
              obtain ⟨h1, h2⟩ := h
              subst h1
              subst h2
              refine ⟨agg, hv, ha, rfl, h8.1, h8.2, hmod, ?_, ?_⟩
              · omega
              · intro hf
                simp only [hf, true_and] at hfin
                omega

theorem construct_composite_ok (k : Kind) (p : Params) (c : CompositeType)
    (h : construct_composite k p = .ok c) :
    ∃ agg, validate_declaration k p = .ok c.full_name ∧
      aggregate_bit_length_sets k p.attributes = .ok agg ∧
      union_post k p.attributes = .ok c.tag_bit_length ∧
      c.version = p.version ∧ c.attributes = p.attributes ∧ c.final = p.final ∧
      c.deprecated = p.deprecated ∧ c.fixed_port_id = p.fixedPortId ∧
      c.parent_service = p.parentService ∧ c.kind = k ∧
      c.extent = resolved_extent p agg ∧
      8 ≤ alignment_of_attributes p.attributes ∧
      alignment_of_attributes p.attributes % 8 = 0 ∧
      c.extent % alignment_of_attributes p.attributes = 0 ∧
      minimal_extent_of agg p.attributes ≤ c.extent ∧
      (p.final = true → c.extent = minimal_extent_of agg p.attributes) := by
  unfold construct_composite at h
  split at h
  · simp at h
  · rename_i name ext hb
    split at h
    · simp at h
    · rename_i tag hu
      simp only [Except.ok.injEq] at h
      subst h
      obtain ⟨agg, hv, ha, hext, h8, h8d, hmod, hmin, hfin⟩ := construct_base_ok k p name ext hb
      subst hext
      exact ⟨agg, hv, ha, hu, rfl, rfl, rfl, rfl, rfl, rfl, rfl, rfl, h8, h8d, hmod, hmin, hfin⟩

/-- Name normalization fact: whenever declaration validation succeeds, the
returned full name is the whitespace-stripped input name. -/
theorem validate_declaration_ok_name (k : Kind) (p : Params) (nm : String)
    (h : validate_declaration k p = .ok nm) : nm = str_trim p.name := by
  unfold validate_declaration at h
  split at h
  · simp at h
  · split at h
    · simp at h
    · split at h
      · simp at h
      · split at h
        · simp at h
        · split at h
          · simp at h
          · split at h
            · simp at h
            · split at h
              · simp at h
              · split at h
                · simp at h
                · split at h
                  · simp at h
                  · simp only [Except.ok.injEq] at h
                    exact h.symm

/-- A composite of service kind never constructs: the aggregation hook raises
`TypeError` before the extent can be derived. -/
theorem construct_composite_service_error (p : Params) :
    ∃ e, construct_composite .service p = .error e := by
  unfold construct_composite construct_base
  cases hv : validate_declaration .service p with
  | error e => exact ⟨e, rfl⟩
  | ok nm => exact ⟨.serviceNotSerializable, rfl⟩

/-- When the union aggregation succeeds over two or more variants, the tag
assert passed, so the tag bit length is one of 8, 16, 32, 64. -/
theorem union_aggregate_tag_mem (ts : List SType) (s : Finset Nat)
    (h2 : 2 ≤ ts.length) (h : aggregate_bit_length_sets_of_union ts = .ok s) :
    compute_tag_bit_length ts = 8 ∨ compute_tag_bit_length ts = 16 ∨
    compute_tag_bit_length ts = 32 ∨ compute_tag_bit_length ts = 64 := by
  match ts with
  | [] => simp at h2
  | [t] => simp at h2
  | a :: b :: rest =>
    unfold aggregate_bit_length_sets_of_union at h
    split at h
    · rename_i heq; simp at heq
    · rename_i t heq; simp at heq
    · rename_i t1 t2 r heq
      rw [heq]
      split at h
      · assumption
      · simp at h

/-- Padding fields (alignment one bit) and constants (not fields) never move
the running maximum of the alignment fold, so folding over all fields equals
folding over the non-padding fields only. -/
theorem alignment_fold_eq (attrs : List Attribute) (n : Nat) (hn : 1 ≤ n) :
    ((fields_of attrs).map fun a => a.dataType.align).foldl max n =
    ((fields_except_padding attrs).map fun a => a.dataType.align).foldl max n := by
  induction attrs generalizing n with
  | nil => rfl
  | cons a rest ih =>
    cases a with
    | field nm t =>
      simp only [fields_of, fields_except_padding, List.filter_cons, Attribute.isField,
        Attribute.isPadding, Bool.not_false, Bool.and_self, if_true, List.map_cons,
        List.foldl_cons]
      exact ih (max n t.align) (hn.trans (Nat.le_max_left _ _))
    | padding bits =>
      simp only [fields_of, fields_except_padding, List.filter_cons, Attribute.isField,
        Attribute.isPadding, Bool.not_true, Bool.and_false, if_true, if_false,
        List.map_cons, List.foldl_cons, Attribute.dataType]
      rw [Nat.max_eq_left hn]
      exact ih n hn
    | constant nm t =>
      simp only [fields_of, fields_except_padding, List.filter_cons, Attribute.isField,
        Attribute.isPadding, Bool.not_true, Bool.false_and, if_false]
      exact ih n hn

/-- Collected facts of a successful union post-construction check: at least two
variants, no forbidden attribute, and the stored tag is the computed tag bit
length. -/
theorem union_post_ok (attrs : List Attribute) (tag : Option Nat)
    (h : union_post .union attrs = .ok tag) :
    2 ≤ number_of_variants attrs ∧ attrs.any union_forbidden = false ∧
    tag = some (compute_tag_bit_length (field_types attrs)) := by
  simp only [union_post] at h
  split at h
  · simp at h
  · split at h
    · simp at h
    · rename_i hv hf
      simp only [Except.ok.injEq] at h
      refine ⟨by omega, by simpa using hf, h.symm⟩

/-- Sample parameters for a non-final structure `a.A` with one 16-bit field:
minimal extent 16, resolved extent 32. -/
def sampleNonFinalParams : Params :=
  { name := "a.A"
    version := ⟨0, 1⟩
    attributes := [Attribute.field "a" sampleU16]
    extent := none
    final := false
    deprecated := false
    fixedPortId := none
    parentService := false }

/-- The composite produced by `sampleNonFinalParams`. -/
def sampleNonFinal : CompositeType :=
  { full_name := "a.A"
    version := ⟨0, 1⟩
    attributes := [Attribute.field "a" sampleU16]
    final := false
    deprecated := false
    fixed_port_id := none
    parent_service := false
    kind := .struct
    extent := 32
    tag_bit_length := none }

theorem sampleNonFinal_ok :
    construct_composite .struct sampleNonFinalParams = .ok sampleNonFinal := by decide

/-- C7: every successfully constructed composite type has an extent that is an
exact multiple of its alignment requirement, and an alignment requirement
that is a positive multiple of 8 bits. -/
theorem extent_and_alignment_invariants (k : Kind) (p : Params) (c : CompositeType)
    (h : construct_composite k p = .ok c) :
    c.extent % c.alignment_requirement = 0 ∧ c.alignment_requirement % 8 = 0 ∧
    0 < c.alignment_requirement := by
  obtain ⟨agg, _, _, _, _, hattrs, _, _, _, _, _, _, h8, h8d, hmod, _, _⟩ :=
    construct_composite_ok k p c h
  have hal : c.alignment_requirement = alignment_of_attributes p.attributes := by
    unfold CompositeType.alignment_requirement
    rw [hattrs]
  rw [hal]
  exact ⟨hmod, h8d, by omega⟩

theorem extent_and_alignment_invariants_witness :
    construct_composite .struct sampleStructParams = .ok sampleStruct ∧
    (sampleStruct.extent % sampleStruct.alignment_requirement = 0 ∧
     sampleStruct.alignment_requirement % 8 = 0 ∧ 0 < sampleStruct.alignment_requirement) :=
  ⟨sampleStruct_ok,
   extent_and_alignment_invariants .struct sampleStructParams sampleStruct sampleStruct_ok⟩

/-- C3: the extent of every successfully constructed final composite equals the
maximum of the aggregate bit-length set padded to the alignment requirement;
and a final declaration carrying an explicit extent different from that value
is rejected with the invalid-extent error as soon as construction reaches the
extent validations (that is, once the declaration checks and the aggregation
have gone through). -/
theorem final_extent_exact_and_override_rejected :
    (∀ (k : Kind) (p : Params) (c : CompositeType),
      construct_composite k p = .ok c → p.final = true →
      ∃ agg, aggregate_bit_length_sets k p.attributes = .ok agg ∧
        c.extent = bls_max (pad_to_alignment agg (alignment_of_attributes p.attributes))) ∧
    (∀ (k : Kind) (p : Params) (e : Nat) (nm : String) (agg : Finset Nat),
      p.final = true → p.extent = some e →
      validate_declaration k p = .ok nm →
      aggregate_bit_length_sets k p.attributes = .ok agg →
      8 ≤ alignment_of_attributes p.attributes →
      alignment_of_attributes p.attributes % 8 = 0 →
      e ≠ bls_max (pad_to_alignment agg (alignment_of_attributes p.attributes)) →
      construct_composite k p = .error .invalidExtent) := by
  constructor
  · intro k p c h hf
    obtain ⟨agg, _, ha, _, _, _, _, _, _, _, _, _, _, _, _, _, hfineq⟩ :=
      construct_composite_ok k p c h
    exact ⟨agg, ha, hfineq hf⟩
  · intro k p e nm agg hf hpe hv ha h8 h8d hne
    have hres : resolved_extent p agg = e := by simp [resolved_extent, hpe]
    have hmin : minimal_extent_of agg p.attributes =
        bls_max (pad_to_alignment agg (alignment_of_attributes p.attributes)) := rfl
    have hb : construct_base k p = .error .invalidExtent := by
      unfold construct_base
      rw [hv, ha]
      dsimp only
      rw [if_neg (not_not_intro ⟨h8, h8d⟩), hres]
      by_cases hm : e % alignment_of_attributes p.attributes = 0
      · rw [if_neg (not_not_intro hm)]
        by_cases hlt : e < minimal_extent_of agg p.attributes
        · rw [if_pos hlt]
        · rw [if_neg hlt]
          have hgt : minimal_extent_of agg p.attributes < e := by
            rw [← hmin] at hne
            omega
          rw [if_pos ⟨hf, hgt⟩]
      · rw [if_pos hm]
    unfold construct_composite
    rw [hb]

theorem final_extent_exact_and_override_rejected_witness :
    (∃ agg, aggregate_bit_length_sets .struct sampleStructParams.attributes = .ok agg ∧
      sampleStruct.extent =
        bls_max (pad_to_alignment agg (alignment_of_attributes sampleStructParams.attributes))) ∧
    construct_composite .struct { sampleStructParams with extent := some 8 } =
      .error .invalidExtent :=
  ⟨final_extent_exact_and_override_rejected.1 .struct sampleStructParams sampleStruct
     sampleStruct_ok rfl,
   final_extent_exact_and_override_rejected.2 .struct
     { sampleStructParams with extent := some 8 } 8 "a.A" {32}
     rfl rfl (by decide) (by decide) (by decide) (by decide) (by decide)⟩

/-- C2: the exposed bit-length set of a successfully constructed final
structure equals the ordered fold over its fields (in declaration order,
starting from `{0}`, padding the running set to each field's alignment and
then taking the pointwise sum with the field's bit-length set), padded to the
structure's alignment requirement. -/
theorem final_structure_bit_length_set_eq_padded_fold (p : Params) (c : CompositeType)
    (h : construct_composite .struct p = .ok c) (hf : c.final = true) :
    c.bit_length_set = .ok (pad_to_alignment
      ((field_types c.attributes).foldl
        (fun bls t => minkowski_sum (pad_to_alignment bls t.align) t.bls) {0})
      c.alignment_requirement) := by
  obtain ⟨agg, _, _, _, _, _, _, _, _, _, hkind, _⟩ := construct_composite_ok _ _ _ h
  unfold CompositeType.bit_length_set
  rw [if_pos hf, hkind]
  simp only [aggregate_bit_length_sets]
  rfl

theorem final_structure_bit_length_set_eq_padded_fold_witness :
    construct_composite .struct sampleStructParams = .ok sampleStruct ∧
    sampleStruct.bit_length_set = .ok (pad_to_alignment
      ((field_types sampleStruct.attributes).foldl
        (fun bls t => minkowski_sum (pad_to_alignment bls t.align) t.bls) {0})
      sampleStruct.alignment_requirement) :=
  ⟨sampleStruct_ok,
   final_structure_bit_length_set_eq_padded_fold sampleStructParams sampleStruct
     sampleStruct_ok rfl⟩

/-- C6: the exposed bit-length set of a successfully constructed non-final
composite is every integer from 0 to the extent inclusive, padded to the
alignment requirement, with the delimiter-header width — which is
`max(32, alignment_requirement)` — added to every element. -/
theorem nonfinal_bit_length_set_formula (k : Kind) (p : Params) (c : CompositeType)
    (_h : construct_composite k p = .ok c) (hf : c.final = false) :
    ∃ d, c.delimiter_header_bit_length = some d ∧
      d = max DEFAULT_DELIMITER_HEADER_BIT_LENGTH c.alignment_requirement ∧
      c.bit_length_set = .ok ((pad_to_alignment (Finset.range (c.extent + 1))
        c.alignment_requirement).image fun x => x + d) := by
  have hne : ¬ c.final = true := by simp [hf]
  refine ⟨max DEFAULT_DELIMITER_HEADER_BIT_LENGTH c.alignment_requirement, ?_, rfl, ?_⟩
  · unfold CompositeType.delimiter_header_bit_length
    rw [if_neg hne]
  · unfold CompositeType.bit_length_set
    rw [if_neg hne]

theorem nonfinal_bit_length_set_formula_witness :
    construct_composite .struct sampleNonFinalParams = .ok sampleNonFinal ∧
    ∃ d, sampleNonFinal.delimiter_header_bit_length = some d ∧
      d = max DEFAULT_DELIMITER_HEADER_BIT_LENGTH sampleNonFinal.alignment_requirement ∧
      sampleNonFinal.bit_length_set = .ok ((pad_to_alignment
        (Finset.range (sampleNonFinal.extent + 1))
        sampleNonFinal.alignment_requirement).image fun x => x + d) :=
  ⟨sampleNonFinal_ok,
   nonfinal_bit_length_set_formula .struct sampleNonFinalParams sampleNonFinal
     sampleNonFinal_ok rfl⟩

/-- C4: the alignment requirement of every successfully constructed composite
equals the largest of 8 bits and the alignment requirements of its
non-padding, non-constant fields' data types — padding fields (whose void
types are one-bit-aligned) and constants (not fields) never contribute. -/
theorem alignment_requirement_matches_spec (k : Kind) (p : Params) (c : CompositeType)
    (_h : construct_composite k p = .ok c) :
    c.alignment_requirement = alignment_requirement_spec c.attributes := by
  unfold CompositeType.alignment_requirement alignment_of_attributes alignment_requirement_spec
  exact alignment_fold_eq c.attributes 8 (by omega)

theorem alignment_requirement_matches_spec_witness :
    construct_composite .struct sampleStructParams = .ok sampleStruct ∧
    sampleStruct.alignment_requirement = alignment_requirement_spec sampleStruct.attributes :=
  ⟨sampleStruct_ok,
   alignment_requirement_matches_spec .struct sampleStructParams sampleStruct sampleStruct_ok⟩

/-- Sample parameters for a final union `a.A` of two 16-bit variants (the
spec's concrete case 2: tag width 8, bit-length set `{24}`). -/
def sampleUnionParams : Params :=
  { name := "a.A"
    version := ⟨0, 1⟩
    attributes := [Attribute.field "a" sampleU16, Attribute.field "b" sampleU16]
    extent := none
    final := true
    deprecated := false
    fixedPortId := none
    parentService := false }

/-- The composite produced by `sampleUnionParams`. -/
def sampleUnion : CompositeType :=
  { full_name := "a.A"
    version := ⟨0, 1⟩
    attributes := [Attribute.field "a" sampleU16, Attribute.field "b" sampleU16]
    final := true
    deprecated := false
    fixed_port_id := none
    parent_service := false
    kind := .union
    extent := 24
    tag_bit_length := some 8 }

theorem sampleUnion_ok : construct_composite .union sampleUnionParams = .ok sampleUnion := by
  decide

/-- C5: the stored tag of every successfully constructed union equals the
computed tag bit length — the bit length of (number of variants − 1), rounded
up to the next power of two no smaller than 8, then rounded up to at least
the largest variant alignment — and that value is one of 8, 16, 32, 64. -/
theorem union_tag_bit_length_formula (p : Params) (u : CompositeType)
    (h : construct_composite .union p = .ok u) :
    u.tag_bit_length = some (compute_tag_bit_length (field_types p.attributes)) ∧
    compute_tag_bit_length (field_types p.attributes) =
      ((field_types p.attributes).map SType.align).foldl max
        (2 ^ bitLen (max 8 (bitLen ((field_types p.attributes).length - 1)) - 1)) ∧
    (compute_tag_bit_length (field_types p.attributes) = 8 ∨
     compute_tag_bit_length (field_types p.attributes) = 16 ∨
     compute_tag_bit_length (field_types p.attributes) = 32 ∨
     compute_tag_bit_length (field_types p.attributes) = 64) := by
  obtain ⟨agg, _, ha, hu, _⟩ := construct_composite_ok _ _ _ h
  obtain ⟨h2, _, htag⟩ := union_post_ok p.attributes u.tag_bit_length hu
  refine ⟨htag, rfl, ?_⟩
  have hlen : 2 ≤ (field_types p.attributes).length := by
    unfold field_types
    rw [List.length_map]
    exact h2
  exact union_aggregate_tag_mem (field_types p.attributes) agg hlen ha

theorem union_tag_bit_length_formula_witness :
    construct_composite .union sampleUnionParams = .ok sampleUnion ∧
    sampleUnion.tag_bit_length =
      some (compute_tag_bit_length (field_types sampleUnionParams.attributes)) ∧
    (compute_tag_bit_length (field_types sampleUnionParams.attributes) = 8 ∨
     compute_tag_bit_length (field_types sampleUnionParams.attributes) = 16 ∨
     compute_tag_bit_length (field_types sampleUnionParams.attributes) = 32 ∨
     compute_tag_bit_length (field_types sampleUnionParams.attributes) = 64) :=
  ⟨sampleUnion_ok,
   (union_tag_bit_length_formula sampleUnionParams sampleUnion sampleUnion_ok).1,
   (union_tag_bit_length_formula sampleUnionParams sampleUnion sampleUnion_ok).2.2⟩

/-- Under a malformed-union condition (fewer than two variants, a padding
field, or a void-typed field) the post-construction check of
`UnionType.__init__` fails with the malformed-union error. -/
theorem union_post_malformed (attrs : List Attribute)
    (hbad : number_of_variants attrs < 2 ∨
      (∃ a ∈ attrs, a.isPadding = true) ∨
      (∃ a ∈ attrs, a.isField = true ∧ a.dataType.isVoid = true)) :
    union_post .union attrs = .error .malformedUnion := by
  simp only [union_post]
  by_cases hv : number_of_variants attrs < 2
  · rw [if_pos hv]
  · rw [if_neg hv]
    have hany : attrs.any union_forbidden = true := by
      rcases hbad with hb | ⟨a, hm, hp⟩ | ⟨a, hm, _, hvd⟩
      · exact absurd hb hv
      · exact List.any_eq_true.mpr ⟨a, hm, by simp [union_forbidden, hp]⟩
      · exact List.any_eq_true.mpr ⟨a, hm, by simp [union_forbidden, hvd]⟩
    rw [if_pos hany]

/-- C8: a union declaration with fewer than two variant fields, or one whose
attributes include a padding field or a void-typed field, never constructs;
and once the base pipeline (`CompositeType.__init__`) has gone through, the
reported error is specifically the malformed-union one. -/
theorem malformed_union_rejected (p : Params)
    (hbad : number_of_variants p.attributes < 2 ∨
      (∃ a ∈ p.attributes, a.isPadding = true) ∨
      (∃ a ∈ p.attributes, a.isField = true ∧ a.dataType.isVoid = true)) :
    (∃ e, construct_composite .union p = .error e) ∧
    (∀ nm ext, construct_base .union p = .ok (nm, ext) →
      construct_composite .union p = .error .malformedUnion) := by
  have hup := union_post_malformed p.attributes hbad
  constructor
  · cases hb : construct_base .union p with
    | error e => exact ⟨e, by unfold construct_composite; rw [hb]⟩
    | ok pr =>
      obtain ⟨nm, ext⟩ := pr
      refine ⟨.malformedUnion, ?_⟩
      unfold construct_composite
      rw [hb]
      dsimp only
      rw [hup]
  · intro nm ext hb
    unfold construct_composite
    rw [hb]
    dsimp only
    rw [hup]

/-- Sample parameters for a union with a single variant. -/
def sampleOneVariantParams : Params :=
  { name := "a.A"
    version := ⟨0, 1⟩
    attributes := [Attribute.field "a" sampleU16]
    extent := none
    final := true
    deprecated := false
    fixedPortId := none
    parentService := false }

/-- Sample parameters for a union containing a padding field. -/
def samplePaddedUnionParams : Params :=
  { name := "a.A"
    version := ⟨0, 1⟩
    attributes := [Attribute.field "a" sampleU16, Attribute.field "b" sampleU16,
                   Attribute.padding 16]
    extent := none
    final := true
    deprecated := false
    fixedPortId := none
    parentService := false }

theorem malformed_union_rejected_witness :
    number_of_variants sampleOneVariantParams.attributes < 2 ∧
    (∃ e, construct_composite .union sampleOneVariantParams = .error e) ∧
    (∃ a ∈ samplePaddedUnionParams.attributes, a.isPadding = true) ∧
    (∃ e, construct_composite .union samplePaddedUnionParams = .error e) :=
  ⟨by decide,
   (malformed_union_rejected sampleOneVariantParams (Or.inl (by decide))).1,
   by decide,
   (malformed_union_rejected samplePaddedUnionParams (Or.inr (Or.inl (by decide)))).1⟩

/-- C1: the ServiceType constructor never succeeds.  Concretely, a well-formed
service declaration (valid name, version, two empty struct schemas) fails
with the `TypeError` of the service aggregation hook, because
`CompositeType.__init__` invokes `self._aggregate_bit_length_sets()` while
deriving the extent of the container, and `ServiceType` overrides that hook
to raise unconditionally; in general every invocation of the constructor
returns an error. -/
theorem service_construction_always_raises :
    construct_service "ns.S" ⟨1, 0⟩
      { attributes := [], extent := none, isUnion := false, isFinal := false }
      { attributes := [], extent := none, isUnion := false, isFinal := false }
      false none = .error .serviceNotSerializable ∧
    ∀ (name : String) (v : Version) (rp sp : SchemaParams) (d : Bool) (pid : Option Nat),
      ∃ e, construct_service name v rp sp d pid = .error e := by
  constructor
  · decide
  · intro name v rp sp d pid
    unfold construct_service
    split
    · exact ⟨_, rfl⟩
    · split
      · exact ⟨_, rfl⟩
      · split
        · exact ⟨_, rfl⟩
        · rename_i svc hsvc
          obtain ⟨e, he⟩ := construct_composite_service_error
            { name := name
              version := v
              attributes := [Attribute.field "request" _, Attribute.field "response" _]
              extent := none
              final := true
              deprecated := d
              fixedPortId := pid
              parentService := false }
          rw [he] at hsvc
          exact Except.noConfusion hsvc

/-- C9: `set_error_location_if_unknown` only fills in location components that
are currently unset: a non-empty path is never overwritten, a non-zero line
is never overwritten, falsy arguments never change anything, and an unset
component is set from a truthy argument. -/
theorem set_error_location_only_fills_unknown (e : ParseError)
    (path : Option String) (line : Option Int) :
    (∀ s, e.path = some s → ¬ s = "" →
      (e.set_error_location_if_unknown path line).path = e.path) ∧
    (∀ n, e.line = some n → ¬ n = 0 →
      (e.set_error_location_if_unknown path line).line = e.line) ∧
    (truthy_path path = false → (e.set_error_location_if_unknown path line).path = e.path) ∧
    (truthy_line line = false → (e.set_error_location_if_unknown path line).line = e.line) ∧
    (truthy_path e.path = false → truthy_path path = true →
      (e.set_error_location_if_unknown path line).path = path) ∧
    (truthy_line e.line = false → truthy_line line = true →
      (e.set_error_location_if_unknown path line).line = line) := by
  unfold ParseError.set_error_location_if_unknown
  refine ⟨?_, ?_, ?_, ?_, ?_, ?_⟩
  · intro s hs hne
    have ht : truthy_path e.path = true := by
      rw [hs]; simp [truthy_path, hne]
    simp [ht]
  · intro n hn hne
    have ht : truthy_line e.line = true := by
      rw [hn]; simp [truthy_line, hne]
    simp [ht]
  · intro hp; simp [hp]
  · intro hl; simp [hl]
  · intro h1 h2; simp [h1, h2]
  · intro h1 h2; simp [h1, h2]

theorem set_error_location_only_fills_unknown_witness :
    (ParseError.set_error_location_if_unknown ⟨some "f.dsdl", none⟩
      (some "g.dsdl") (some 7)).path = some "f.dsdl" ∧
    (ParseError.set_error_location_if_unknown ⟨some "f.dsdl", none⟩
      (some "g.dsdl") (some 7)).line = some 7 :=
  ⟨(set_error_location_only_fills_unknown ⟨some "f.dsdl", none⟩ (some "g.dsdl") (some 7)).1
     "f.dsdl" rfl (by decide),
   (set_error_location_only_fills_unknown ⟨some "f.dsdl", none⟩ (some "g.dsdl")
     (some 7)).2.2.2.2.2 (by decide) (by decide)⟩

/-- Parameters carrying a whitespace-only name together with a parent-service
back-reference: the synthesized-name suffix assert of `CompositeType.__init__`
(line 86) runs before the empty-name check and fails first. -/
def sampleWhitespaceSynthParams : Params :=
  { name := "   "
    version := ⟨0, 1⟩
    attributes := []
    extent := none
    final := false
    deprecated := false
    fixedPortId := none
    parentService := true }

/-- C10 counterexample: with a parent-service back-reference attached, a
whitespace-only name is rejected by the `.Request`/`.Response` suffix
assertion, not by the invalid-name error the claim requires. -/
theorem whitespace_name_counterexample :
    construct_composite .struct sampleWhitespaceSynthParams = .error .assertionFailure ∧
    decide (Err.assertionFailure = Err.invalidName) = false := by decide

/-- C10 (amended): construction strips surrounding whitespace from the name
before any validation — the full name of every constructed composite is the
stripped input — and a whitespace-only name is rejected as empty with the
invalid-name error whenever no parent-service back-reference is attached
(with one attached, the synthesized-name suffix assertion fails first). -/
theorem name_stripping_amended :
    (∀ (k : Kind) (p : Params) (c : CompositeType),
      construct_composite k p = .ok c → c.full_name = str_trim p.name) ∧
    (∀ (k : Kind) (p : Params), p.parentService = false → str_trim p.name = "" →
      construct_composite k p = .error .invalidName) := by
  constructor
  · intro k p c h
    obtain ⟨agg, hv, _⟩ := construct_composite_ok k p c h
    exact validate_declaration_ok_name k p c.full_name hv
  · intro k p hps hws
    have hvd : validate_declaration k p = .error .invalidName := by
      unfold validate_declaration
      rw [if_neg (by simp [hps]), if_pos hws]
    unfold construct_composite construct_base
    rw [hvd]

theorem name_stripping_amended_witness :
    (construct_composite .struct sampleStructParams = .ok sampleStruct ∧
     sampleStruct.full_name = str_trim sampleStructParams.name) ∧
    construct_composite .struct { sampleStructParams with name := "  " } =
      .error .invalidName :=
  ⟨⟨sampleStruct_ok,
    name_stripping_amended.1 .struct sampleStructParams sampleStruct sampleStruct_ok⟩,
   name_stripping_amended.2 .struct { sampleStructParams with name := "  " } rfl (by decide)⟩
